import Mathlib

/-! Shallow embedding of `src/bluesky_notif/parser.py`. -/

/-- Python/JSON values as decoded by `json.loads`: `None`, `bool`, `int`,
`str`, `list`, `dict`. The feeds consumed here carry integer numbers only. -/
inductive JSON : Type where
  | null : JSON
  | bool (b : Bool) : JSON
  | num (n : Int) : JSON
  | str (s : String) : JSON
  | arr (elems : List JSON) : JSON
  | obj (fields : List (String × JSON)) : JSON
deriving Repr

/-- A Python dict of JSON values (association list, first binding wins). -/
abbrev Dict := List (String × JSON)

/-- Python `x is None`. -/
def isNull : JSON → Bool
  | JSON.null => true
  | _ => false

/-- Python `dict.get(k)`: the value at `k`, or `None` when the key is absent. -/
def dget (d : Dict) (k : String) : JSON :=
  (d.lookup k).getD JSON.null

/-- Python truthiness of a JSON value (`not x`). -/
def pyFalsy : JSON → Bool
  | JSON.null => true
  | JSON.bool b => !b
  | JSON.num n => n == 0
  | JSON.str s => s == ""
  | JSON.arr xs => xs.isEmpty
  | JSON.obj fs => fs.isEmpty

/-- Exceptions the embedded code can raise. -/
inductive PyErr where
  | valueError (msg : String)
  | typeError (msg : String)
  | attributeError (msg : String)
deriving Repr, DecidableEq

/-- `value.get(k)` on an arbitrary Python value: dict lookup with `None`
default, `AttributeError` when the value is not a dict. -/
def jget : JSON → String → Except PyErr JSON
  | JSON.obj fields, k => Except.ok (dget fields k)
  | _, _ => Except.error (PyErr.attributeError "object has no attribute get")

/-- `ReasonType` enumeration from the source. -/
inductive ReasonType where
  | REPOST
  | PIN
  | NONE
deriving Repr, DecidableEq

/-- The string value of each `ReasonType` member. -/
def ReasonType.value : ReasonType → String
  | .REPOST => "app.bsky.feed.defs#reasonRepost"
  | .PIN => "app.bsky.feed.defs#reasonPin"
  | .NONE => ""

/-- `ReplyType` enumeration from the source (string values only). -/
inductive ReplyType where
  | POST_VIEW
  | NOT_FOUND_POST
  | BLOCKED_POST
deriving Repr, DecidableEq

/-- The string value of each `ReplyType` member. -/
def ReplyType.value : ReplyType → String
  | .POST_VIEW => "app.bsky.feed.defs#postView"
  | .NOT_FOUND_POST => "app.bsky.feed.defs#notFoundPost"
  | .BLOCKED_POST => "app.bsky.feed.defs#blockedPost"

/-- `EmbedType` enumeration from the source (string values only). -/
inductive EmbedType where
  | IMAGES_VIEW
  | VIDEO_VIEW
  | EXTERNAL_VIEW
  | RECORD_VIEW
  | RECORD_WITH_MEDIA_VIEW
  | NONE
deriving Repr, DecidableEq

/-- The string value of each `EmbedType` member. -/
def EmbedType.value : EmbedType → String
  | .IMAGES_VIEW => "app.bsky.embed.images#view"
  | .VIDEO_VIEW => "app.bsky.embed.video#view"
  | .EXTERNAL_VIEW => "app.bsky.embed.external#view"
  | .RECORD_VIEW => "app.bsky.embed.record#view"
  | .RECORD_WITH_MEDIA_VIEW => "app.bsky.embed.recordWithMedia#view"
  | .NONE => ""

/-- A `datetime.datetime` value: calendar fields plus an optional UTC offset
in minutes (`none` for a naive datetime). Both `"Z"` and `"+00:00"` parse to
offset `0` (CPython maps both to `timezone.utc`). -/
structure Datetime where
  year : Nat
  month : Nat
  day : Nat
  hour : Nat
  minute : Nat
  second : Nat
  microsecond : Nat
  utcoffsetMinutes : Option Int
deriving Repr, DecidableEq

/-- Read exactly `n` decimal digits, most significant first. -/
def readDigits : Nat → Nat → List Char → Option (Nat × List Char)
  | acc, 0, cs => some (acc, cs)
  | acc, n + 1, c :: cs =>
      if c.isDigit then readDigits (acc * 10 + (c.toNat - 48)) n cs else none
  | _, _ + 1, [] => none

/-- Consume one expected character. -/
def expectChar (c : Char) : List Char → Option (List Char)
  | x :: xs => if x = c then some xs else none
  | [] => none

/-- Read up to six fractional-second digits, returning value, digit count
and the remaining input. -/
def readFrac : Nat → Nat → List Char → Nat × Nat × List Char
  | acc, len, c :: cs =>
      if len < 6 && c.isDigit then readFrac (acc * 10 + (c.toNat - 48)) (len + 1) cs
      else (acc, len, c :: cs)
  | acc, len, [] => (acc, len, [])

/-- Gregorian leap-year rule. -/
def isLeapYear (y : Nat) : Bool :=
  (y % 4 == 0 && y % 100 != 0) || (y % 400 == 0)

/-- Days in a month of a given year. -/
def daysInMonth (y m : Nat) : Nat :=
  if m == 2 then (if isLeapYear y then 29 else 28)
  else if m == 4 || m == 6 || m == 9 || m == 11 then 30
  else 31

/-- Parse a trailing UTC-offset suffix: empty (naive), `Z`/`z`, or
`±HH:MM` bounded below 24 hours. -/
def parseOffsetChars : List Char → Option (Option Int)
  | [] => some none
  | ['Z'] => some (some 0)
  | ['z'] => some (some 0)
  | c :: cs =>
      if c = '+' || c = '-' then
        match readDigits 0 2 cs with
        | some (hh, ':' :: rest) =>
            match readDigits 0 2 rest with
            | some (mm, []) =>
                if hh < 24 && mm < 60 then
                  some (some (if c = '-' then -(((hh * 60 + mm : Nat)) : Int)
                              else ((hh * 60 + mm : Nat) : Int)))
                else none
            | _ => none
        | _ => none
      else none

/-- Modelled from CPython `datetime.fromisoformat` (3.11+), restricted to the
shapes this feed uses: `YYYY-MM-DD`, optionally followed by a `T` or space
separator and `HH:MM:SS`, an optional fraction of one to six digits, and an
optional offset (`Z`, `z`, or `±HH:MM`). Field ranges are validated as in
CPython; the many further ISO-8601 variants 3.11 accepts are out of scope of
the feeds modelled here. -/
def fromisoformatStr (s : String) : Option Datetime := do
  let (y, cs) ← readDigits 0 4 s.toList
  let cs ← expectChar '-' cs
  let (mo, cs) ← readDigits 0 2 cs
  let cs ← expectChar '-' cs
  let (d, cs) ← readDigits 0 2 cs
  if 1 ≤ mo && mo ≤ 12 && 1 ≤ d && d ≤ daysInMonth y mo then
    match cs with
    | [] => some (Datetime.mk y mo d 0 0 0 0 none)
    | sep :: cs2 =>
      if sep = 'T' || sep = ' ' then do
        let (h, cs3) ← readDigits 0 2 cs2
        let cs4 ← expectChar ':' cs3
        let (mi, cs5) ← readDigits 0 2 cs4
        let cs6 ← expectChar ':' cs5
        let (sec, cs7) ← readDigits 0 2 cs6
        let (us, cs8) ← (match cs7 with
          | '.' :: csf =>
              (match readFrac 0 0 csf with
               | (acc, len, csr) =>
                   if 1 ≤ len then some (acc * 10 ^ (6 - len), csr) else none)
          | _ => some (0, cs7))
        let tz ← parseOffsetChars cs8
        if h ≤ 23 && mi ≤ 59 && sec ≤ 59 then
          some (Datetime.mk y mo d h mi sec us tz)
        else none
      else none
  else none

/-- `datetime.fromisoformat` applied to an arbitrary Python value:
`TypeError` when the argument is not a `str`, `ValueError` when the string
does not parse. -/
def fromisoformat : JSON → Except PyErr Datetime
  | JSON.str s =>
      match fromisoformatStr s with
      | some dt => Except.ok dt
      | none => Except.error (PyErr.valueError ("Invalid isoformat string: " ++ s))
  | _ => Except.error (PyErr.typeError "fromisoformat: argument must be str")

/-- Zero-pad a natural number to width `w`. -/
def padZero (w n : Nat) : String :=
  let s := toString n
  String.mk (List.replicate (w - s.length) '0') ++ s

/-- Modelled from CPython `datetime.isoformat()`: the fraction is printed
only when the microsecond field is nonzero, and an aware datetime's offset is
always printed `±HH:MM` (UTC prints as `+00:00`, never as `Z`). -/
def Datetime.isoformat (dt : Datetime) : String :=
  padZero 4 dt.year ++ "-" ++ padZero 2 dt.month ++ "-" ++ padZero 2 dt.day ++ "T" ++
  padZero 2 dt.hour ++ ":" ++ padZero 2 dt.minute ++ ":" ++ padZero 2 dt.second ++
  (if dt.microsecond == 0 then "" else "." ++ padZero 6 dt.microsecond) ++
  (match dt.utcoffsetMinutes with
   | none => ""
   | some off =>
       (if off < 0 then "-" else "+") ++
       padZero 2 (off.natAbs / 60) ++ ":" ++ padZero 2 (off.natAbs % 60))

/-- `PostRecord.record_type`: project the `$type` field of the record dict. -/
def PostRecord.record_type (record : Dict) : JSON := dget record "$type"

/-- `PostRecord.text`: project the `text` field. -/
def PostRecord.text (record : Dict) : JSON := dget record "text"

/-- `PostRecord.created_at`: project the `createdAt` field. -/
def PostRecord.created_at (record : Dict) : JSON := dget record "createdAt"

/-- `PostRecord.embed`: project the `embed` field. -/
def PostRecord.embed (record : Dict) : JSON := dget record "embed"

/-- `PostRecord.facets`: project the `facets` field. -/
def PostRecord.facets (record : Dict) : JSON := dget record "facets"

/-- `PostRecord.langs`: project the `langs` field. -/
def PostRecord.langs (record : Dict) : JSON := dget record "langs"

/-- `PostParser._default_count`: `0 if count is None else count`. -/
def PostParser._default_count (count : JSON) : JSON :=
  if isNull count then JSON.num 0 else count

/-- `PostParser.uri`. -/
def PostParser.uri (post : Dict) : JSON := dget post "uri"

/-- `PostParser.cid`. -/
def PostParser.cid (post : Dict) : JSON := dget post "cid"

/-- `PostParser.author`. -/
def PostParser.author (post : Dict) : JSON := dget post "author"

/-- `PostParser.record`: the raw value handed to the `PostRecord` wrapper. -/
def PostParser.record (post : Dict) : JSON := dget post "record"

/-- `PostParser.embed`: the raw embed, or the `no_embed` sentinel when the
field is absent or `None`. -/
def PostParser.embed (post : Dict) : JSON :=
  let embed := dget post "embed"
  if isNull embed then JSON.obj [("error", JSON.str "no_embed")] else embed

/-- `PostParser.reply_count`. -/
def PostParser.reply_count (post : Dict) : JSON :=
  PostParser._default_count (dget post "replyCount")

/-- `PostParser.repost_count`. -/
def PostParser.repost_count (post : Dict) : JSON :=
  PostParser._default_count (dget post "repostCount")

/-- `PostParser.like_count`. -/
def PostParser.like_count (post : Dict) : JSON :=
  PostParser._default_count (dget post "likeCount")

/-- `PostParser.quote_count`. -/
def PostParser.quote_count (post : Dict) : JSON :=
  PostParser._default_count (dget post "quoteCount")

/-- `PostParser.indexed_at`: `datetime.fromisoformat(self._post.get("indexedAt"))`. -/
def PostParser.indexed_at (post : Dict) : Except PyErr Datetime :=
  fromisoformat (dget post "indexedAt")

/-- `ReplyParser.root`: `self._reply().get("root")` over the wrapped value. -/
def ReplyParser.root (reply : JSON) : Except PyErr JSON := jget reply "root"

/-- `ReplyParser.parent`. -/
def ReplyParser.parent (reply : JSON) : Except PyErr JSON := jget reply "parent"

/-- `ReplyParser.grandparent_author`: pass-through, or the grandparent
sentinel when the field is absent or `None`. -/
def ReplyParser.grandparent_author (reply : JSON) : Except PyErr JSON := do
  let ga ← jget reply "grandparentAuthor"
  if isNull ga then
    pure (JSON.obj [("error", JSON.str "no_feed_reply_grandparentAuthor")])
  else pure ga

/-- `ReasonParser._reason`: normalize `None` to the synthetic all-empty
reason object before any accessor runs. -/
def ReasonParser._reason (reason : JSON) : JSON :=
  if isNull reason then
    JSON.obj [("$type", JSON.str ""), ("by", JSON.str ""), ("indexedAt", JSON.str "")]
  else reason

/-- `ReasonParser.reason_type`: falsy tag maps to `NONE`; the `match`
statement recognizes the two member values and has no fallback branch, so an
unrecognized tag falls through and the function returns Python `None`
(modelled as `Option.none`). -/
def ReasonParser.reason_type (reason : JSON) : Except PyErr (Option ReasonType) := do
  let t ← jget (ReasonParser._reason reason) "$type"
  if pyFalsy t then pure (some ReasonType.NONE)
  else
    match t with
    | JSON.str s =>
        if s == ReasonType.REPOST.value then pure (some ReasonType.REPOST)
        else if s == ReasonType.PIN.value then pure (some ReasonType.PIN)
        else pure none
    | _ => pure none

/-- `ReasonParser.by`: empty string when the field is falsy (`by` is a Lean
keyword, hence the trailing underscore). -/
def ReasonParser.by_ (reason : JSON) : Except PyErr JSON := do
  let b ← jget (ReasonParser._reason reason) "by"
  if pyFalsy b then pure (JSON.str "") else pure b

/-- Result of `ReasonParser.indexed_at`: either a string (the empty-string
fallback) or a parsed datetime. -/
inductive StrOrDatetime where
  | s (v : String)
  | dt (d : Datetime)
deriving Repr, DecidableEq

/-- `ReasonParser.indexed_at`: empty string when the field is falsy,
otherwise `datetime.fromisoformat` of the value. -/
def ReasonParser.indexed_at (reason : JSON) : Except PyErr StrOrDatetime := do
  let i ← jget (ReasonParser._reason reason) "indexedAt"
  if pyFalsy i then pure (StrOrDatetime.s "")
  else do
    let dt ← fromisoformat i
    pure (StrOrDatetime.dt dt)

/-- `FeedParser` state: the current entry and the three cached sub-object
references, each `JSON.null` when unset (Python `None`). -/
structure FeedParser where
  _feed : JSON
  _feed_post : JSON
  _feed_reply : JSON
  _feed_reason : JSON
deriving Repr

/-- `FeedParser.__init__`: all four slots start as `None`. -/
def FeedParser.init : FeedParser :=
  ⟨JSON.null, JSON.null, JSON.null, JSON.null⟩

/-- The `feed` setter: store the entry and overwrite the three cached
sub-object references from it. -/
def FeedParser.setFeed (_fp : FeedParser) (feed : Dict) : FeedParser :=
  ⟨JSON.obj feed, dget feed "post", dget feed "reply", dget feed "reason"⟩

/-- `FeedParser.post`: raise `ValueError` when the cached post is `None`,
otherwise return the raw value wrapped in the `PostParser`. -/
def FeedParser.post (fp : FeedParser) : Except PyErr JSON :=
  if isNull fp._feed_post then Except.error (PyErr.valueError "feed is not set.")
  else Except.ok fp._feed_post

/-- `FeedParser.reply`: the value wrapped in the returned `ReplyParser` —
the `no_feed_reply` sentinel when the cached reply is `None`. -/
def FeedParser.reply (fp : FeedParser) : JSON :=
  if isNull fp._feed_reply then JSON.obj [("error", JSON.str "no_feed_reply")]
  else fp._feed_reply

/-- `FeedParser.reason`: the value wrapped in the returned `ReasonParser`
(possibly `None`). -/
def FeedParser.reason (fp : FeedParser) : JSON := fp._feed_reason

theorem default_count_spec (post : Dict) (k : String) :
    (dget post k = JSON.null → PostParser._default_count (dget post k) = JSON.num 0) ∧
    ∀ v, post.lookup k = some v → isNull v = false →
      PostParser._default_count (dget post k) = v := by
  constructor
  · intro h
    simp [PostParser._default_count, h, isNull]
  · intro v hv hnn
    have hd : dget post k = v := by simp [dget, hv]
    simp [PostParser._default_count, hd, hnn]

/-- C3: each counter accessor (`reply_count`, `repost_count`, `like_count`,
`quote_count`) returns `0` when the raw field is absent or `None`, and the
raw value unchanged (no clamping, no coercion) when present and non-null. -/
theorem counter_accessors_spec (post : Dict) :
    ((dget post "replyCount" = JSON.null → PostParser.reply_count post = JSON.num 0) ∧
      ∀ v, post.lookup "replyCount" = some v → isNull v = false →
        PostParser.reply_count post = v) ∧
    ((dget post "repostCount" = JSON.null → PostParser.repost_count post = JSON.num 0) ∧
      ∀ v, post.lookup "repostCount" = some v → isNull v = false →
        PostParser.repost_count post = v) ∧
    ((dget post "likeCount" = JSON.null → PostParser.like_count post = JSON.num 0) ∧
      ∀ v, post.lookup "likeCount" = some v → isNull v = false →
        PostParser.like_count post = v) ∧
    ((dget post "quoteCount" = JSON.null → PostParser.quote_count post = JSON.num 0) ∧
      ∀ v, post.lookup "quoteCount" = some v → isNull v = false →
        PostParser.quote_count post = v) :=
  ⟨default_count_spec post "replyCount", default_count_spec post "repostCount",
   default_count_spec post "likeCount", default_count_spec post "quoteCount"⟩

theorem counter_accessors_spec_witness :
    PostParser.reply_count [("replyCount", JSON.num 7)] = JSON.num 7 ∧
    PostParser.repost_count [] = JSON.num 0 ∧
    PostParser.like_count [("likeCount", JSON.null)] = JSON.num 0 ∧
    PostParser.quote_count [("quoteCount", JSON.num (-2))] = JSON.num (-2) :=
  ⟨(counter_accessors_spec [("replyCount", JSON.num 7)]).1.2 (JSON.num 7) rfl rfl,
   (counter_accessors_spec []).2.1.1 rfl,
   (counter_accessors_spec [("likeCount", JSON.null)]).2.2.1.1 rfl,
   (counter_accessors_spec [("quoteCount", JSON.num (-2))]).2.2.2.2 (JSON.num (-2)) rfl rfl⟩

/-- C7: calling `post()` on a `FeedParser` on which no entry has ever been
loaded fails with the `ValueError` state error; it does not return `None`
silently. -/
theorem post_before_load_raises :
    FeedParser.post FeedParser.init =
      Except.error (PyErr.valueError "feed is not set.") := rfl

/-- C5: a `ReasonParser` constructed over an absent (`None`) reason:
`reason_type()` returns the `NONE` member, `by()` returns the empty string,
and `indexed_at()` returns the empty string as-is without parsing it; all
three return normally (`Except.ok`), so none raises. -/
theorem reason_accessors_on_absent_reason :
    ReasonParser.reason_type JSON.null = Except.ok (some ReasonType.NONE) ∧
    ReasonParser.by_ JSON.null = Except.ok (JSON.str "") ∧
    ReasonParser.indexed_at JSON.null = Except.ok (StrOrDatetime.s "") :=
  ⟨rfl, rfl, rfl⟩

/-- C1: at the failing input — a reason object whose `$type` is the unknown
non-empty tag `"app.bsky.feed.defs#reasonQuote"` — `reason_type()` returns
normally (no exception) but its value is Python `None` (the `match` statement
falls through), which is neither the `NONE` enumeration member
(`Except.ok (some ReasonType.NONE)`) nor a pass-through of the raw tag. -/
theorem reason_type_unknown_tag_falls_through :
    ReasonParser.reason_type
        (JSON.obj [("$type", JSON.str "app.bsky.feed.defs#reasonQuote")]) =
      Except.ok none := rfl

/-- C2 counterexample: decoding a Post whose `indexedAt` is
`"2023-05-01T12:00:00Z"` and re-serializing the parsed timestamp with
`isoformat()` yields `"2023-05-01T12:00:00+00:00"`, which is not the
identical string `"2023-05-01T12:00:00Z"`. -/
theorem indexed_at_roundtrip_not_identical :
    (PostParser.indexed_at [("indexedAt", JSON.str "2023-05-01T12:00:00Z")]).map
        Datetime.isoformat = Except.ok "2023-05-01T12:00:00+00:00" ∧
    ("2023-05-01T12:00:00+00:00" == "2023-05-01T12:00:00Z") = false :=
  ⟨rfl, rfl⟩

/-- C2 amended: decoding a Post whose `indexedAt` is
`"2023-05-01T12:00:00Z"` and re-serializing the parsed timestamp with
`isoformat()` yields `"2023-05-01T12:00:00+00:00"` — the same instant, but
CPython prints a UTC offset as `+00:00`, never as `Z`. -/
theorem indexed_at_roundtrip_plus_zero :
    (PostParser.indexed_at [("indexedAt", JSON.str "2023-05-01T12:00:00Z")]).map
        Datetime.isoformat = Except.ok "2023-05-01T12:00:00+00:00" := rfl

/-- C6: `embed()` returns the `no_embed` sentinel when the `embed` field is
absent or `None`, and the raw embed value unchanged when present non-null. -/
theorem embed_sentinel_or_passthrough (post : Dict) :
    (dget post "embed" = JSON.null →
      PostParser.embed post = JSON.obj [("error", JSON.str "no_embed")]) ∧
    ∀ v, post.lookup "embed" = some v → isNull v = false →
      PostParser.embed post = v := by
  constructor
  · intro h
    simp [PostParser.embed, h, isNull]
  · intro v hv hnn
    have hd : dget post "embed" = v := by simp [dget, hv]
    simp [PostParser.embed, hd, hnn]

theorem embed_sentinel_or_passthrough_witness :
    PostParser.embed [] = JSON.obj [("error", JSON.str "no_embed")] ∧
    PostParser.embed
        [("embed", JSON.obj [("$type", JSON.str "app.bsky.embed.images#view")])] =
      JSON.obj [("$type", JSON.str "app.bsky.embed.images#view")] :=
  ⟨(embed_sentinel_or_passthrough []).1 rfl,
   (embed_sentinel_or_passthrough
      [("embed", JSON.obj [("$type", JSON.str "app.bsky.embed.images#view")])]).2
     (JSON.obj [("$type", JSON.str "app.bsky.embed.images#view")]) rfl rfl⟩

/-- C4: for every feed entry whose `reply` field is absent, `reply()` returns
a parser wrapping the `{error: "no_feed_reply"}` sentinel, and `root()` on it
returns `None` without raising. -/
theorem reply_absent_sentinel_root_null (fp : FeedParser) (entry : Dict)
    (h : entry.lookup "reply" = none) :
    FeedParser.reply (FeedParser.setFeed fp entry) =
      JSON.obj [("error", JSON.str "no_feed_reply")] ∧
    ReplyParser.root (FeedParser.reply (FeedParser.setFeed fp entry)) =
      Except.ok JSON.null := by
  have hd : dget entry "reply" = JSON.null := by simp [dget, h]
  have h1 : FeedParser.reply (FeedParser.setFeed fp entry) =
      JSON.obj [("error", JSON.str "no_feed_reply")] := by
    simp [FeedParser.reply, FeedParser.setFeed, hd, isNull]
  exact ⟨h1, by rw [h1]; rfl⟩

theorem reply_absent_sentinel_root_null_witness :
    FeedParser.reply (FeedParser.setFeed FeedParser.init [("post", JSON.obj [])]) =
      JSON.obj [("error", JSON.str "no_feed_reply")] ∧
    ReplyParser.root
        (FeedParser.reply (FeedParser.setFeed FeedParser.init [("post", JSON.obj [])])) =
      Except.ok JSON.null :=
  reply_absent_sentinel_root_null FeedParser.init [("post", JSON.obj [])] rfl

/-- C8: `indexed_at()` parses the `indexedAt` string into a timestamp and
fails exactly otherwise: a present, well-formed string yields its parse, and
any successful result can only have come from a present, well-formed string —
there is no default for this field (absent, non-string, or malformed values
all propagate an error to the caller). -/
theorem indexed_at_parse_exact (post : Dict) :
    (∀ s dt, dget post "indexedAt" = JSON.str s → fromisoformatStr s = some dt →
        PostParser.indexed_at post = Except.ok dt) ∧
    ∀ dt, PostParser.indexed_at post = Except.ok dt →
      ∃ s, dget post "indexedAt" = JSON.str s ∧ fromisoformatStr s = some dt := by
  constructor
  · intro s dt hs hp
    simp [PostParser.indexed_at, hs, fromisoformat, hp]
  · intro dt h
    have h' : fromisoformat (dget post "indexedAt") = Except.ok dt := h
    cases he : dget post "indexedAt" <;> rw [he] at h' <;>
      simp [fromisoformat] at h'
    case str s =>
      cases hp : fromisoformatStr s <;> rw [hp] at h'
      · exact absurd h' (by simp)
      · exact ⟨s, rfl, by rw [hp]; exact congrArg some (by injection h')⟩

theorem indexed_at_parse_exact_witness :
    PostParser.indexed_at [("indexedAt", JSON.str "2024-06-30T08:15:00Z")] =
      Except.ok (Datetime.mk 2024 6 30 8 15 0 0 (some 0)) :=
  (indexed_at_parse_exact [("indexedAt", JSON.str "2024-06-30T08:15:00Z")]).1
    "2024-06-30T08:15:00Z" (Datetime.mk 2024 6 30 8 15 0 0 (some 0)) rfl rfl

/-- C9: loading entry A and then entry B on the same `FeedParser` leaves the
whole parser state — hence `post()`, `reply()` and `reason()` — identical to
that of a parser that only ever loaded B: the `feed` setter overwrites all
three cached sub-object references, leaving no residue from A. -/
theorem load_overwrites_all_state (fp : FeedParser) (a b : Dict) :
    FeedParser.setFeed (FeedParser.setFeed fp a) b = FeedParser.setFeed FeedParser.init b ∧
    FeedParser.post (FeedParser.setFeed (FeedParser.setFeed fp a) b) =
      FeedParser.post (FeedParser.setFeed FeedParser.init b) ∧
    FeedParser.reply (FeedParser.setFeed (FeedParser.setFeed fp a) b) =
      FeedParser.reply (FeedParser.setFeed FeedParser.init b) ∧
    FeedParser.reason (FeedParser.setFeed (FeedParser.setFeed fp a) b) =
      FeedParser.reason (FeedParser.setFeed FeedParser.init b) :=
  ⟨rfl, rfl, rfl, rfl⟩

/-- C10: an entry whose `post` field is absent (or `None`) caches `None` in
the post slot, so `post()` raises the very same `ValueError` state error as
on a parser on which no entry was ever loaded — the two situations are
indistinguishable to the caller. -/
theorem post_missing_same_error_as_unloaded (fp : FeedParser) (entry : Dict)
    (h : dget entry "post" = JSON.null) :
    FeedParser.post (FeedParser.setFeed fp entry) =
      Except.error (PyErr.valueError "feed is not set.") ∧
    FeedParser.post (FeedParser.setFeed fp entry) = FeedParser.post FeedParser.init := by
  have h1 : FeedParser.post (FeedParser.setFeed fp entry) =
      Except.error (PyErr.valueError "feed is not set.") := by
    simp [FeedParser.post, FeedParser.setFeed, h, isNull]
  exact ⟨h1, h1.trans rfl⟩

theorem post_missing_same_error_witness :
    FeedParser.post (FeedParser.setFeed FeedParser.init [("reply", JSON.obj [])]) =
      Except.error (PyErr.valueError "feed is not set.") ∧
    FeedParser.post (FeedParser.setFeed FeedParser.init [("reply", JSON.obj [])]) =
      FeedParser.post FeedParser.init :=
  post_missing_same_error_as_unloaded FeedParser.init [("reply", JSON.obj [])] rfl
